import Mathlib

set_option autoImplicit false

deriving instance DecidableEq for Except

namespace Pykis

/-- Errors raised by the embedded Python code, tagged by the Python exception
class that would be raised. -/
inductive PyError where
  | runtimeError : String → PyError
  | attributeError : String → PyError
  | keyError : String → PyError
  | valueError : String → PyError
  | httpError : String → PyError
deriving DecidableEq, Repr

/-- A JSON object or parameter dictionary, embedded as an association list.
Lookup returns the first binding of a key. -/
abbrev Params : Type := List (String × String)

/-- Dictionary lookup: the value of the first binding of the key, if any. -/
def lookup_param (ps : Params) (key : String) : Option String :=
  match ps with
  | [] => none
  | (k, v) :: rest => if k = key then some v else lookup_param rest key

/-- Modelled from the spec: merge_json of request_utility.py is not under src.
It merges a list of JSON dictionaries where later dictionaries override
earlier ones; in this embedding lookup finds the binding contributed by the
latest dictionary that contains the key. -/
def merge_json (jsons : List Params) : Params :=
  jsons.reverse.flatten

/-- Modelled from the spec: none_to_empty_dict of utility.py is not under src.
An absent optional dictionary becomes the empty dictionary. -/
def none_to_empty_dict (j : Option Params) : Params :=
  match j with
  | none => []
  | some ps => ps

/-- First-seen duplicate removal over a list of rows, carrying the set of rows
already kept. -/
def drop_duplicates_aux (seen : List String) : List String → List String
  | [] => []
  | x :: xs =>
    if x ∈ seen then drop_duplicates_aux seen xs
    else x :: drop_duplicates_aux (x :: seen) xs

/-- Embedding of pandas DataFrame.drop_duplicates on concatenated rows: each
distinct row is kept exactly once, at its first occurrence. -/
def drop_duplicates (l : List String) : List String :=
  drop_duplicates_aux [] l

/-- The Country enum of oversea_info.py (lines 5 to 11). -/
inductive Country where
  | USA
  | HK
  | JP
  | CN_SHA
  | CN_SZX
  | VN
deriving DecidableEq, Repr

/-- Numeric value of each Country member. -/
def Country.val : Country → Nat
  | .USA => 0
  | .HK => 1
  | .JP => 2
  | .CN_SHA => 3
  | .CN_SZX => 4
  | .VN => 5

/-- Name of each Country member. -/
def Country.name : Country → String
  | .USA => "USA"
  | .HK => "HK"
  | .JP => "JP"
  | .CN_SHA => "CN_SHA"
  | .CN_SZX => "CN_SZX"
  | .VN => "VN"

/-- Python Country(value): the member with the given value, if any (the
Python call raises ValueError otherwise). -/
def Country.ofValue (n : Nat) : Option Country :=
  if n = 0 then some .USA
  else if n = 1 then some .HK
  else if n = 2 then some .JP
  else if n = 3 then some .CN_SHA
  else if n = 4 then some .CN_SZX
  else if n = 5 then some .VN
  else none

/-- The Market enum of oversea_info.py (lines 18 to 31). -/
inductive Market where
  | NASD
  | NYSE
  | AMEX
  | SEHK
  | TKSE
  | SHAA
  | SZAA
  | HASE
  | VNSE
deriving DecidableEq, Repr

/-- Numeric value of each Market member. -/
def Market.val : Market → Nat
  | .NASD => 0
  | .NYSE => 1
  | .AMEX => 2
  | .SEHK => 10
  | .TKSE => 20
  | .SHAA => 30
  | .SZAA => 40
  | .HASE => 50
  | .VNSE => 51

/-- Python Market[code]: member lookup by name; none models the KeyError the
Python indexing raises for a string that is not a member name. -/
def Market.fromName (code : String) : Option Market :=
  if code = "NASD" then some .NASD
  else if code = "NYSE" then some .NYSE
  else if code = "AMEX" then some .AMEX
  else if code = "SEHK" then some .SEHK
  else if code = "TKSE" then some .TKSE
  else if code = "SHAA" then some .SHAA
  else if code = "SZAA" then some .SZAA
  else if code = "HASE" then some .HASE
  else if code = "VNSE" then some .VNSE
  else none

/-- Embedding of get_country_by_market_code (oversea_info.py lines 38 to 41):
index the Market enum by name (KeyError when absent), divide the member value
by 10 with floor division, and return the name of the Country member with
that value (ValueError when there is none). -/
def get_country_by_market_code (code : String) : Except PyError String :=
  match Market.fromName code with
  | none => .error (.keyError code)
  | some m =>
    match Country.ofValue (m.val / 10) with
    | none => .error (.valueError "not a valid Country value")
    | some c => .ok c.name

/-- One page of a paged query: the result rows (opaque row values), the
response-level continuation flag tr_cont, and the continuation cursor fields
returned in the response body. -/
structure Page where
  rows : List String
  tr_cont : String
  ctx_area_fk : String
  ctx_area_nk : String
deriving DecidableEq, Repr

/-- Default page value used when indexing a synthetic page sequence out of
range. -/
def default_page : Page := ⟨[], "", "", ""⟩

/-- Modelled from the spec: get_continuous_query_code of request_utility.py
is not under src. The two-way query-code selector returns code "1" for a
domestic query and code "3" for an overseas query. -/
def get_continuous_query_code (is_kr : Bool) : String :=
  if is_kr then "1" else "3"

/-- Modelled from the spec: the continuation flag values "F" and the empty
string mean more data follows; any other value is a terminal marker. -/
def has_more_data (tr_cont : String) : Bool :=
  tr_cont = "F" || tr_cont = ""

/-- Modelled from the spec: the continuation cursor fields extracted from a
prior response, keyed by the CTX_AREA_FK and CTX_AREA_NK field names suffixed
with the query code, to be merged into the parameters of the next request. -/
def continuation_params (is_kr : Bool) (p : Page) : Params :=
  [("CTX_AREA_FK" ++ get_continuous_query_code is_kr, p.ctx_area_fk),
   ("CTX_AREA_NK" ++ get_continuous_query_code is_kr, p.ctx_area_nk)]

/-- A fetch function: the call index and the extra parameters merged into the
request produce either an HTTP-layer error or one page. -/
abbrev FetchFn : Type := Nat → Params → Except PyError Page

/-- Modelled from the spec: the loop of send_continuous_query of
request_utility.py, which is not under src. Starting at call index k with
the given extra parameters, the loop issues one fetch per iteration, stops
when the continuation flag of the response signals no more data, and
otherwise carries the cursor fields of the response into the parameters of
the next call. It returns the pages in order paired with the number of fetch
calls issued; an HTTP-layer error propagates unchanged and discards the pages
already fetched. The fuel argument only bounds the recursion depth of this
embedding; the modelled loop itself has no defensive iteration bound. -/
def send_continuous_query_aux (fetch : FetchFn) (is_kr : Bool) :
    Nat → Params → Nat → Except PyError (List Page × Nat)
  | _, _, 0 => .ok ([], 0)
  | k, extra_param, fuel + 1 =>
    match fetch k extra_param with
    | .error e => .error e
    | .ok p =>
      if has_more_data p.tr_cont then
        match send_continuous_query_aux fetch is_kr (k + 1) (continuation_params is_kr p) fuel with
        | .error e => .error e
        | .ok (ps, c) => .ok (p :: ps, c + 1)
      else .ok ([p], 1)

/-- Modelled from the spec: send_continuous_query drives the fetch function
with an initially empty extra-parameter dictionary, maps every page through
the row mapper to_dataframe, concatenates the per-page rows in order and
removes duplicate rows, keeping the first occurrence of each. The result is
paired with the number of fetch calls issued. -/
def send_continuous_query (fetch : FetchFn) (to_dataframe : Page → List String)
    (is_kr : Bool) (fuel : Nat) : Except PyError (List String × Nat) :=
  match send_continuous_query_aux fetch is_kr 0 [] fuel with
  | .error e => .error e
  | .ok (ps, c) => .ok (drop_duplicates (ps.map to_dataframe).flatten, c)

/-- The extra parameters the pager passes to each fetch call: call 0 receives
the empty dictionary; call k+1 receives the continuation cursor fields of the
response to call k (meaningful only when that response arrived and the loop
continued). -/
def params_trace (fetch : FetchFn) (is_kr : Bool) : Nat → Params
  | 0 => []
  | k + 1 =>
    match fetch k (params_trace fetch is_kr k) with
    | .error _ => []
    | .ok p => continuation_params is_kr p

/-- The response the server returns to the k-th fetch call of a pager run. -/
def resp_at (fetch : FetchFn) (is_kr : Bool) (k : Nat) : Except PyError Page :=
  fetch k (params_trace fetch is_kr k)

/-- The account configured on the Api object: the Python named tuple built
from account_code and product_code. Api.account is None when no account has
been configured. -/
structure Account where
  account_code : String
  product_code : String
deriving DecidableEq, Repr

/-- A fully built API request: URL path, transaction id and parameter
dictionary. Headers other than the continuation header are produced by
external collaborators (token, hash) and are not part of this embedding. -/
structure APIRequest where
  url_path : String
  tr_id : String
  params : Params
deriving DecidableEq, Repr

/-- Embedding of Api._get_total_balance (public_api.py lines 420 to 449):
select the domestic or overseas balance endpoint, build the parameter
dictionary with account fields and empty continuation cursor fields, merge
the extra parameters over it, and send one GET request through the server
collaborator. Accessing the account fields with no account configured raises
AttributeError before any request is built or sent. -/
def _get_total_balance (server : APIRequest → Except PyError Page)
    (account : Option Account) (is_kr : Bool)
    (extra_header : Option Params) (extra_param : Option Params) :
    List APIRequest × Except PyError Page :=
  let endpoint :=
    if is_kr then ("/uapi/domestic-stock/v1/trading/inquire-balance", "TTTC8434R")
    else ("/uapi/overseas-stock/v1/trading/inquire-balance", "JTTT3012R")
  let extra_param2 := none_to_empty_dict extra_param
  let _extra_header2 := merge_json [[("tr_cont", "")], none_to_empty_dict extra_header]
  let query_code := get_continuous_query_code is_kr
  match account with
  | none => ([], .error (.attributeError "NoneType object has no attribute account_code"))
  | some acc =>
    let params : Params :=
      [("CANO", acc.account_code), ("ACNT_PRDT_CD", acc.product_code),
       ("CTX_AREA_FK" ++ query_code, ""), ("CTX_AREA_NK" ++ query_code, "")]
    let req : APIRequest := ⟨endpoint.1, endpoint.2, merge_json [params, extra_param2]⟩
    ([req], server req)

/-- Embedding of Api._get_kr_total_balance (lines 468 to 485): merge the
fixed domestic balance parameters with the caller's extra parameters, then
delegate to _get_total_balance with is_kr set. -/
def _get_kr_total_balance (server : APIRequest → Except PyError Page)
    (account : Option Account)
    (extra_header : Option Params) (extra_param : Option Params) :
    List APIRequest × Except PyError Page :=
  let extra_param2 := merge_json
    [[("AFHR_FLPR_YN", "N"), ("FNCG_AMT_AUTO_RDPT_YN", "N"),
      ("FUND_STTL_ICLD_YN", "N"), ("INQR_DVSN", "01"), ("OFL_YN", "N"),
      ("PRCS_DVSN", "01"), ("UNPR_DVSN", "01")],
     none_to_empty_dict extra_param]
  _get_total_balance server account true extra_header (some extra_param2)

/-- Embedding of Api.get_kr_stock_balance (lines 299 to 323): a paged query
that drives _get_kr_total_balance through send_continuous_query with the
domestic query family; the pandas reshaping of each page is abstracted as the
row mapper to_dataframe. -/
def get_kr_stock_balance (server : APIRequest → Except PyError Page)
    (account : Option Account) (to_dataframe : Page → List String)
    (fuel : Nat) : Except PyError (List String × Nat) :=
  send_continuous_query
    (fun _k ep => (_get_kr_total_balance server account none (some ep)).2)
    to_dataframe true fuel

/-- Embedding of Api._get_os_stock_balance (lines 394 to 418) for one market
code: a paged query that drives _get_total_balance on the overseas endpoint
through send_continuous_query with the overseas query family. -/
def _get_os_stock_balance (server : APIRequest → Except PyError Page)
    (account : Option Account) (market_code currency_code : String)
    (to_dataframe : Page → List String) (fuel : Nat) :
    Except PyError (List String × Nat) :=
  send_continuous_query
    (fun _k ep =>
      (_get_total_balance server account false none
        (some (merge_json [[("OVRS_EXCG_CD", market_code), ("TR_CRCY_CD", currency_code)], ep]))).2)
    to_dataframe false fuel

/-- Embedding of Api.get_kr_buyable_cash (lines 269 to 297): raise
RuntimeError synchronously when no account is configured, before building the
parameters or sending the request; otherwise send one GET request and read
the ord_psbl_cash field of the first output (a missing field raises
KeyError; the int conversion is left as the raw string). -/
def get_kr_buyable_cash (server : APIRequest → Params)
    (account : Option Account) : List APIRequest × Except PyError String :=
  match account with
  | none => ([], .error (.runtimeError "account not configured: call set_account first"))
  | some acc =>
    let params : Params :=
      [("CANO", acc.account_code), ("ACNT_PRDT_CD", acc.product_code),
       ("PDNO", ""), ("ORD_UNPR", "0"), ("ORD_DVSN", "02"),
       ("CMA_EVLU_AMT_ICLD_YN", "Y"), ("OVRS_ICLD_YN", "N")]
    let req : APIRequest :=
      ⟨"/uapi/domestic-stock/v1/trading/inquire-daily-ccld", "TTTC8908R", params⟩
    match lookup_param (server req) "ord_psbl_cash" with
    | some v => ([req], .ok v)
    | none => ([req], .error (.keyError "ord_psbl_cash"))

/-- The response shape read by get_kr_ohlcv: the is_ok predicate of the
response object and the output blocks, each a list of opaque rows. -/
structure OhlcvResponse where
  is_ok : Bool
  outputs : List (List String)
deriving DecidableEq, Repr

/-- Embedding of the time-unit normalization of Api._get_kr_history
(lines 177 to 184). -/
def normalize_time_unit (time_unit : String) : String :=
  let tu := time_unit.toUpper
  if tu = "DAYS" ∨ tu = "DAY" then "D"
  else if tu = "WEEKS" ∨ tu = "WEEK" then "W"
  else if tu = "MONTHS" ∨ tu = "MONTH" then "M"
  else tu

/-- Embedding of Api._get_kr_history (lines 171 to 198): normalize the time
unit, build the daily-price request and send exactly one GET request with
raise_flag False, so transport errors surface through the is_ok field of the
response rather than as exceptions. -/
def _get_kr_history (server : APIRequest → OhlcvResponse)
    (ticker : String) (time_unit : String) : List APIRequest × OhlcvResponse :=
  let params : Params :=
    [("FID_COND_MRKT_DIV_CODE", "J"), ("FID_INPUT_ISCD", ticker),
     ("FID_PERIOD_DIV_CODE", normalize_time_unit time_unit),
     ("FID_ORG_ADJ_PRC", "0000000001")]
  let req : APIRequest :=
    ⟨"/uapi/domestic-stock/v1/quotations/inquire-daily-price", "FHKST01010400", params⟩
  ([req], server req)

/-- Embedding of Api.get_kr_ohlcv (lines 200 to 229): a single non-paged
fetch; when the response is not ok, has no output blocks, or its first output
block has zero rows, the method returns an empty DataFrame; otherwise the
rows of the first output block, reshaped by the (abstracted) column selection
and renaming. -/
def get_kr_ohlcv (server : APIRequest → OhlcvResponse) (reshape : String → String)
    (ticker : String) (time_unit : String) : List APIRequest × List String :=
  let hist := _get_kr_history server ticker time_unit
  let res := hist.2
  if ¬ res.is_ok ∨ res.outputs.length = 0 ∨ (res.outputs.getD 0 []).length = 0 then
    (hist.1, [])
  else
    (hist.1, (res.outputs.getD 0 []).map reshape)

/-- One row of the unsettled-overseas-orders DataFrame that
Api.cancel_all_os_orders reads: order number (the index column), ticker,
exchange code and unsettled quantity. -/
structure OsOrderRow where
  odno : String
  pdno : String
  ovrs_excg_cd : String
  nccs_qty : String
deriving DecidableEq, Repr

/-- Embedding of Api.get_os_orders (public_api.py lines 942 to 986): the
method body defines a local row-mapping helper but contains no request
dispatch and no return statement, so every call falls off the end of the
body and evaluates to None. -/
def get_os_orders : Option (List OsOrderRow) := none

/-- Embedding of the cancel path of Api._revise_cancel_os_orders
(lines 1170 to 1234) as used by cancel_os_order: the tr-id table indexed by
the country of the market code, the quantity defaulting (a missing or
non-positive amount becomes 1) and the cancel request parameters, with
RVSE_CNCL_DVSN_CD 02 and price 0. -/
def cancel_os_order_request (account : Account) (is_real : Bool)
    (order_number ticker market_code : String) (amount : Option Int) :
    Except PyError APIRequest :=
  match get_country_by_market_code market_code with
  | .error e => .error e
  | .ok country =>
    let tr_id :=
      if is_real then
        if country = "USA" then "TTTT1004U"
        else if country = "HK" then "TTTS1003U"
        else if country = "JP" then "TTTS0309U"
        else if country = "CN_SHA" then "TTTS0302U"
        else if country = "CN_SZX" then "TTTS0306U"
        else "TTTS0312U"
      else
        if country = "USA" then "VTTT1004U"
        else if country = "HK" then "VTTS1003U"
        else if country = "JP" then "VTTS0309U"
        else if country = "CN_SHA" then "VTTS0302U"
        else if country = "CN_SZX" then "VTTS0306U"
        else "VTTS0312U"
    let amount2 : Int :=
      match amount with
      | none => 1
      | some a => if a ≤ 0 then 1 else a
    .ok ⟨"/uapi/overseas-stock/v1/trading/order-rvsecncl", tr_id,
         [("CANO", account.account_code), ("ACNT_PRDT_CD", account.product_code),
          ("OVRS_EXCG_CD", market_code), ("PDNO", ticker),
          ("ORGN_ODNO", order_number), ("RVSE_CNCL_DVSN_CD", "02"),
          ("ORD_QTY", toString amount2), ("OVRS_ORD_UNPR", "0")]⟩

/-- Cancel requests for a list of unsettled-order rows, in order, as the loop
of Api.cancel_all_os_orders would issue them; an error while building a
request aborts the loop. -/
def cancel_rows (account : Account) (is_real : Bool) :
    List OsOrderRow → List APIRequest × Except PyError Unit
  | [] => ([], .ok ())
  | r :: rs =>
    match r.nccs_qty.toInt? with
    | none => ([], .error (.valueError "invalid literal for int"))
    | some a =>
      match cancel_os_order_request account is_real r.odno r.pdno r.ovrs_excg_cd (some a) with
      | .error e => ([], .error e)
      | .ok req =>
        let rest := cancel_rows account is_real rs
        (req :: rest.1, rest.2)

/-- Embedding of Api.cancel_all_os_orders (lines 1260 to 1285): read the
unsettled-order DataFrame from get_os_orders and cancel each order; reading
the index attribute of the None that get_os_orders returns raises
AttributeError, so no cancel request is ever issued. -/
def cancel_all_os_orders (account : Account) (is_real : Bool) :
    List APIRequest × Except PyError Unit :=
  match get_os_orders with
  | none => ([], .error (.attributeError "NoneType object has no attribute index"))
  | some rows => cancel_rows account is_real rows

/-- The RuntimeError message of the market-order guard of _send_os_order
(line 1122), which rejects non-positive overseas order prices. -/
def market_order_error : PyError :=
  .runtimeError "overseas stock trading does not support market orders"

/-- Embedding of Api._send_os_order (lines 1112 to 1143): format the price,
normalize the market code through the market-code map (the external
collaborator to_4), and reject any price less than or equal to zero with a
RuntimeError before the order request is built or sent; otherwise build the
order request (tr id from the external collaborator trId) and post it. The
client state (the token object) is threaded explicitly: the post collaborator
may change it, the guard path returns it unchanged. -/
def _send_os_order {σ : Type}
    (post : σ → APIRequest → σ × Except PyError Params)
    (to_4 : String → String) (fmt : ℚ → String)
    (trId : String → Bool → Bool → String)
    (st : σ) (account : Account) (ticker market_code : String)
    (order_amount : Int) (price : ℚ) (buy : Bool) (is_real : Bool) :
    σ × List APIRequest × Except PyError Params :=
  let order_type := "00"
  let price_as_str := fmt price
  let mc := to_4 market_code
  if price ≤ 0 then
    (st, [], .error market_order_error)
  else
    let tr_id := trId mc buy is_real
    let params : Params :=
      [("CANO", account.account_code), ("ACNT_PRDT_CD", account.product_code),
       ("PDNO", ticker), ("OVRS_EXCG_CD", mc), ("ORD_DVSN", order_type),
       ("ORD_QTY", toString order_amount), ("OVRS_ORD_UNPR", price_as_str),
       ("ORD_SVR_DVSN_CD", "0")]
    let req : APIRequest := ⟨"/uapi/overseas-stock/v1/trading/order", tr_id, params⟩
    let res := post st req
    (res.1, [req], res.2)

/-- Embedding of Api.buy_os_stock (lines 1145 to 1154): an overseas buy order
delegated to _send_os_order with buy set. -/
def buy_os_stock {σ : Type}
    (post : σ → APIRequest → σ × Except PyError Params)
    (to_4 : String → String) (fmt : ℚ → String)
    (trId : String → Bool → Bool → String)
    (st : σ) (account : Account) (market_code ticker : String)
    (amount : Int) (price : ℚ) (is_real : Bool) :
    σ × List APIRequest × Except PyError Params :=
  _send_os_order post to_4 fmt trId st account ticker market_code amount price true is_real

/-- Embedding of Api.sell_os_stock (lines 1156 to 1165): an overseas sell
order delegated to _send_os_order with buy unset. -/
def sell_os_stock {σ : Type}
    (post : σ → APIRequest → σ × Except PyError Params)
    (to_4 : String → String) (fmt : ℚ → String)
    (trId : String → Bool → Bool → String)
    (st : σ) (account : Account) (market_code ticker : String)
    (amount : Int) (price : ℚ) (is_real : Bool) :
    σ × List APIRequest × Except PyError Params :=
  _send_os_order post to_4 fmt trId st account ticker market_code amount price false is_real

/-- A page whose continuation flag always signals more data, used to witness
the absence of a defensive iteration bound in the pager. -/
def always_more_page : Page := ⟨[], "F", "", ""⟩

theorem mem_drop_duplicates_aux (x : String) (l : List String) :
    ∀ seen : List String, x ∈ drop_duplicates_aux seen l ↔ x ∈ l ∧ x ∉ seen := by
  induction l with
  | nil => intro seen; simp [drop_duplicates_aux]
  | cons y ys ih =>
    intro seen
    rw [drop_duplicates_aux]
    split_ifs with hy
    · rw [ih seen]
      constructor
      · exact fun h => ⟨List.mem_cons_of_mem _ h.1, h.2⟩
      · rintro ⟨h1, h2⟩
        rcases List.mem_cons.mp h1 with rfl | h1
        · exact absurd hy h2
        · exact ⟨h1, h2⟩
    · rw [List.mem_cons, ih (y :: seen), List.mem_cons]
      by_cases hxy : x = y
      · subst hxy; simp [hy]
      · simp [hxy]

theorem drop_duplicates_aux_nodup (l : List String) :
    ∀ seen : List String, (drop_duplicates_aux seen l).Nodup := by
  induction l with
  | nil => intro seen; simp [drop_duplicates_aux]
  | cons y ys ih =>
    intro seen
    rw [drop_duplicates_aux]
    split_ifs with hy
    · exact ih seen
    · refine List.Nodup.cons ?_ (ih (y :: seen))
      intro hmem
      exact ((mem_drop_duplicates_aux y ys (y :: seen)).mp hmem).2 (List.mem_cons_self y seen)

theorem drop_duplicates_aux_sublist (l : List String) :
    ∀ seen : List String, (drop_duplicates_aux seen l).Sublist l := by
  induction l with
  | nil => intro seen; simp [drop_duplicates_aux]
  | cons y ys ih =>
    intro seen
    rw [drop_duplicates_aux]
    split_ifs with hy
    · exact (ih seen).trans (List.sublist_cons_self y ys)
    · exact (ih (y :: seen)).cons₂ y

theorem mem_drop_duplicates (x : String) (l : List String) :
    x ∈ drop_duplicates l ↔ x ∈ l := by
  rw [drop_duplicates, mem_drop_duplicates_aux]
  simp

theorem drop_duplicates_nodup (l : List String) : (drop_duplicates l).Nodup :=
  drop_duplicates_aux_nodup l []

theorem drop_duplicates_sublist (l : List String) : (drop_duplicates l).Sublist l :=
  drop_duplicates_aux_sublist l []

theorem send_continuous_query_aux_list (pages : List Page) (is_kr : Bool) :
    ∀ (fuel k : Nat) (par : Params), k < pages.length → pages.length ≤ k + fuel →
    (∀ i, i + 1 < pages.length → has_more_data ((pages.getD i default_page).tr_cont) = true) →
    has_more_data ((pages.getD (pages.length - 1) default_page).tr_cont) = false →
    send_continuous_query_aux (fun j _ => .ok (pages.getD j default_page)) is_kr k par fuel
      = .ok (pages.drop k, pages.length - k) := by
  intro fuel
  induction fuel with
  | zero => intro k par h1 h2 _ _; omega
  | succ fuel ih =>
    intro k par h1 h2 hmid hlast
    have step : send_continuous_query_aux (fun j _ => .ok (pages.getD j default_page))
        is_kr k par (fuel + 1)
        = if has_more_data (pages.getD k default_page).tr_cont then
            match send_continuous_query_aux (fun j _ => .ok (pages.getD j default_page)) is_kr
                (k + 1) (continuation_params is_kr (pages.getD k default_page)) fuel with
            | .error e => .error e
            | .ok (ps, c) => .ok (pages.getD k default_page :: ps, c + 1)
          else .ok ([pages.getD k default_page], 1) := rfl
    rw [step]
    by_cases hk : k + 1 < pages.length
    · rw [if_pos (hmid k hk), ih (k + 1) _ hk (by omega) hmid hlast,
          List.getD_eq_getElem pages default_page h1, List.drop_eq_getElem_cons h1]
      have hcount : pages.length - (k + 1) + 1 = pages.length - k := by omega
      rw [← hcount]
    · have hkl : k = pages.length - 1 := by omega
      rw [← hkl] at hlast
      rw [if_neg (by rw [hlast]; exact Bool.false_ne_true),
          List.getD_eq_getElem pages default_page h1, List.drop_eq_getElem_cons h1]
      have hnil : pages.drop (k + 1) = [] := List.drop_eq_nil_of_le (by omega)
      have hone : pages.length - k = 1 := by omega
      rw [hnil, hone]

theorem send_continuous_query_aux_shift (fetch : FetchFn) (is_kr : Bool) (pg : Nat → Page) :
    ∀ (m j fuel : Nat),
    (∀ i, j ≤ i → i < j + m →
      resp_at fetch is_kr i = .ok (pg i) ∧ has_more_data (pg i).tr_cont = true) →
    send_continuous_query_aux fetch is_kr j (params_trace fetch is_kr j) (m + fuel)
      = match send_continuous_query_aux fetch is_kr (j + m) (params_trace fetch is_kr (j + m)) fuel with
        | .error e => .error e
        | .ok (ps, c) => .ok (((List.range m).map fun i => pg (j + i)) ++ ps, c + m) := by
  intro m
  induction m with
  | zero =>
    intro j fuel _
    simp only [Nat.add_zero, Nat.zero_add, List.range_zero, List.map_nil, List.nil_append]
    cases hres : send_continuous_query_aux fetch is_kr j (params_trace fetch is_kr j) fuel with
    | error e => rfl
    | ok pc => obtain ⟨ps, c⟩ := pc; rfl
  | succ m ih =>
    intro j fuel h
    have hj := h j (Nat.le_refl j) (by omega)
    have hfetch : fetch j (params_trace fetch is_kr j) = .ok (pg j) := hj.1
    have harith : m + 1 + fuel = (m + fuel) + 1 := by omega
    rw [harith]
    have step : send_continuous_query_aux fetch is_kr j (params_trace fetch is_kr j) ((m + fuel) + 1)
        = match fetch j (params_trace fetch is_kr j) with
          | .error e => .error e
          | .ok p =>
            if has_more_data p.tr_cont then
              match send_continuous_query_aux fetch is_kr (j + 1) (continuation_params is_kr p) (m + fuel) with
              | .error e => .error e
              | .ok (ps, c) => .ok (p :: ps, c + 1)
            else .ok ([p], 1) := rfl
    rw [step, hfetch]
    have hpt : params_trace fetch is_kr (j + 1) = continuation_params is_kr (pg j) := by
      simp only [params_trace, hfetch]
    simp only [hj.2, if_true, ← hpt]
    have h2 : ∀ i, j + 1 ≤ i → i < j + 1 + m →
        resp_at fetch is_kr i = .ok (pg i) ∧ has_more_data (pg i).tr_cont = true := by
      intro i hi1 hi2
      exact h i (by omega) (by omega)
    rw [ih (j + 1) fuel h2]
    have harith2 : j + 1 + m = j + (m + 1) := by omega
    rw [harith2]
    cases hres : send_continuous_query_aux fetch is_kr (j + (m + 1))
        (params_trace fetch is_kr (j + (m + 1))) fuel with
    | error e => rfl
    | ok pc =>
      obtain ⟨ps, c⟩ := pc
      have hlist : ((List.range (m + 1)).map fun i => pg (j + i))
          = pg j :: ((List.range m).map fun i => pg (j + 1 + i)) := by
        rw [List.range_succ_eq_map, List.map_cons, List.map_map, Nat.add_zero]
        congr 1
        apply List.map_congr_left
        intro i _
        show pg (j + (i + 1)) = pg (j + 1 + i)
        congr 1
        omega
      show Except.ok (pg j :: (((List.range m).map fun i => pg (j + 1 + i)) ++ ps), c + m + 1)
          = Except.ok ((((List.range (m + 1)).map fun i => pg (j + i)) ++ ps), c + (m + 1))
      rw [hlist, List.cons_append]
      have hc : c + m + 1 = c + (m + 1) := by omega
      rw [hc]

/-- C9: for every string code that is the name of a Market member,
get_country_by_market_code returns the name of the Country member whose value
equals the Market member value divided by 10 with floor division: NASD, NYSE
and AMEX map to USA, SEHK to HK, TKSE to JP, SHAA to CN_SHA, SZAA to CN_SZX,
and HASE and VNSE both map to VN; for every string that is not a Market
member name the function raises KeyError. -/
theorem c9_get_country_by_market_code :
    (get_country_by_market_code "NASD" = .ok "USA") ∧
    (get_country_by_market_code "NYSE" = .ok "USA") ∧
    (get_country_by_market_code "AMEX" = .ok "USA") ∧
    (get_country_by_market_code "SEHK" = .ok "HK") ∧
    (get_country_by_market_code "TKSE" = .ok "JP") ∧
    (get_country_by_market_code "SHAA" = .ok "CN_SHA") ∧
    (get_country_by_market_code "SZAA" = .ok "CN_SZX") ∧
    (get_country_by_market_code "HASE" = .ok "VN") ∧
    (get_country_by_market_code "VNSE" = .ok "VN") ∧
    (∀ code m, Market.fromName code = some m →
      ∃ c : Country, Country.ofValue (m.val / 10) = some c ∧
        get_country_by_market_code code = .ok c.name) ∧
    (∀ code, Market.fromName code = none →
      get_country_by_market_code code = .error (.keyError code)) := by
  have hdef : ∀ code, get_country_by_market_code code
      = match Market.fromName code with
        | none => .error (.keyError code)
        | some m2 =>
          match Country.ofValue (m2.val / 10) with
          | none => .error (.valueError "not a valid Country value")
          | some c => .ok c.name := fun _ => rfl
  refine ⟨by decide, by decide, by decide, by decide, by decide, by decide, by decide,
    by decide, by decide, ?_, ?_⟩
  · intro code m hm
    cases m <;> exact ⟨_, rfl, by rw [hdef, hm]; rfl⟩
  · intro code hnone
    rw [hdef, hnone]

/-- C9 witness: a string that is not a Market member name raises KeyError,
obtained from the general clause at the concrete input FOO. -/
theorem c9_witness : get_country_by_market_code "FOO" = .error (.keyError "FOO") :=
  c9_get_country_by_market_code.2.2.2.2.2.2.2.2.2.2 "FOO" (by decide)

/-- C8: every call to get_os_orders evaluates to None, because the method
body defines its row-mapping helper but contains no request dispatch and no
return statement; cancel_all_os_orders reads the index attribute of that
None, so it always raises AttributeError and never issues a cancel
request. -/
theorem c8_get_os_orders_always_none :
    get_os_orders = none ∧
    ∀ (account : Account) (is_real : Bool),
      cancel_all_os_orders account is_real
        = ([], .error (.attributeError "NoneType object has no attribute index")) :=
  ⟨rfl, fun _ _ => rfl⟩

/-- C6: with no account configured, the account-scoped operations raise
synchronously before any HTTP request is sent: get_kr_buyable_cash raises
RuntimeError, and _get_total_balance (used by the balance and order-history
queries) raises AttributeError when it reads the account fields; in both
cases the list of issued requests is empty. -/
theorem c6_missing_account_raises :
    (∀ server : APIRequest → Params,
      get_kr_buyable_cash server none
        = ([], .error (.runtimeError "account not configured: call set_account first"))) ∧
    (∀ (server : APIRequest → Except PyError Page) (is_kr : Bool)
        (eh ep : Option Params),
      _get_total_balance server none is_kr eh ep
        = ([], .error (.attributeError "NoneType object has no attribute account_code"))) :=
  ⟨fun _ => rfl, fun _ _ _ _ => rfl⟩

/-- C4: the query-code selector is a function of the is-domestic flag alone,
returning code 1 for domestic and code 3 for overseas, so the continuation
cursor of a domestic query and of an overseas query land in differently
named CTX_AREA_FK and CTX_AREA_NK parameters, and a key of one family is
never found among the parameters of the other. -/
theorem c4_query_code_routes_disjoint :
    (get_continuous_query_code true = "1") ∧
    (get_continuous_query_code false = "3") ∧
    (∀ p : Page, (continuation_params true p).map Prod.fst
        = ["CTX_AREA_FK1", "CTX_AREA_NK1"]) ∧
    (∀ p : Page, (continuation_params false p).map Prod.fst
        = ["CTX_AREA_FK3", "CTX_AREA_NK3"]) ∧
    (∀ (p q : Page) (key : String),
      key ∈ (continuation_params true p).map Prod.fst →
      lookup_param (continuation_params false q) key = none) ∧
    (∀ (p q : Page) (key : String),
      key ∈ (continuation_params false p).map Prod.fst →
      lookup_param (continuation_params true q) key = none) := by
  refine ⟨rfl, rfl, fun _ => rfl, fun _ => rfl, ?_, ?_⟩
  · intro p q key hk
    simp only [continuation_params, get_continuous_query_code, List.map_cons, List.map_nil,
      List.mem_cons, List.not_mem_nil, or_false] at hk
    rcases hk with rfl | rfl <;> simp [lookup_param, get_continuous_query_code]
  · intro p q key hk
    simp only [continuation_params, get_continuous_query_code, List.map_cons, List.map_nil,
      List.mem_cons, List.not_mem_nil, or_false] at hk
    rcases hk with rfl | rfl <;> simp [lookup_param, get_continuous_query_code]

/-- C4 witness: the domestic forward-key parameter name is not found among
the overseas continuation parameters, instantiated at concrete pages. -/
theorem c4_witness :
    lookup_param (continuation_params false ⟨[], "", "fk", "nk"⟩) "CTX_AREA_FK1" = none :=
  c4_query_code_routes_disjoint.2.2.2.2.1 ⟨[], "", "f", "n"⟩ ⟨[], "", "fk", "nk"⟩
    "CTX_AREA_FK1" (by decide)

/-- C10: for every price less than or equal to zero, buy_os_stock and
sell_os_stock raise the market-order RuntimeError before any HTTP request is
sent, leaving the client state unchanged; for every price greater than zero
the guard does not fire and the order request is built and dispatched. -/
theorem c10_os_price_guard {σ : Type}
    (post : σ → APIRequest → σ × Except PyError Params)
    (to_4 : String → String) (fmt : ℚ → String)
    (trId : String → Bool → Bool → String)
    (st : σ) (account : Account) (market_code ticker : String)
    (amount : Int) (price : ℚ) (is_real : Bool) :
    (price ≤ 0 →
      buy_os_stock post to_4 fmt trId st account market_code ticker amount price is_real
        = (st, [], .error market_order_error) ∧
      sell_os_stock post to_4 fmt trId st account market_code ticker amount price is_real
        = (st, [], .error market_order_error)) ∧
    (0 < price →
      (∃ req : APIRequest,
        buy_os_stock post to_4 fmt trId st account market_code ticker amount price is_real
          = ((post st req).1, [req], (post st req).2)) ∧
      (∃ req : APIRequest,
        sell_os_stock post to_4 fmt trId st account market_code ticker amount price is_real
          = ((post st req).1, [req], (post st req).2))) := by
  constructor
  · intro hle
    constructor
    · simp only [buy_os_stock, _send_os_order, if_pos hle]
    · simp only [sell_os_stock, _send_os_order, if_pos hle]
  · intro hpos
    have hne : ¬ price ≤ 0 := not_le.mpr hpos
    constructor
    · refine ⟨⟨"/uapi/overseas-stock/v1/trading/order", trId (to_4 market_code) true is_real,
        [("CANO", account.account_code), ("ACNT_PRDT_CD", account.product_code),
         ("PDNO", ticker), ("OVRS_EXCG_CD", to_4 market_code), ("ORD_DVSN", "00"),
         ("ORD_QTY", toString amount), ("OVRS_ORD_UNPR", fmt price),
         ("ORD_SVR_DVSN_CD", "0")]⟩, ?_⟩
      simp only [buy_os_stock, _send_os_order, if_neg hne]
    · refine ⟨⟨"/uapi/overseas-stock/v1/trading/order", trId (to_4 market_code) false is_real,
        [("CANO", account.account_code), ("ACNT_PRDT_CD", account.product_code),
         ("PDNO", ticker), ("OVRS_EXCG_CD", to_4 market_code), ("ORD_DVSN", "00"),
         ("ORD_QTY", toString amount), ("OVRS_ORD_UNPR", fmt price),
         ("ORD_SVR_DVSN_CD", "0")]⟩, ?_⟩
      simp only [sell_os_stock, _send_os_order, if_neg hne]

/-- C10 witness: at price minus one the guard rejects the buy order with no
request and unchanged state, and at price one the guard does not fire and the
order request is dispatched. -/
theorem c10_witness :
    (buy_os_stock (fun u _ => (u, .ok [])) id (fun _ => "0.00") (fun _ _ _ => "TTTT1002U")
        () ⟨"12345678", "01"⟩ "NASD" "AAPL" 1 (-1) true
      = ((), [], .error market_order_error)) ∧
    (∃ req : APIRequest,
      buy_os_stock (fun u _ => (u, .ok [])) id (fun _ => "1.00") (fun _ _ _ => "TTTT1002U")
          () ⟨"12345678", "01"⟩ "NASD" "AAPL" 1 1 true
        = ((), [req], .ok [])) := by
  constructor
  · exact ((c10_os_price_guard (fun u _ => (u, .ok [])) id (fun _ => "0.00")
      (fun _ _ _ => "TTTT1002U") () ⟨"12345678", "01"⟩ "NASD" "AAPL" 1 (-1) true).1
      (by norm_num)).1
  · obtain ⟨req, hreq⟩ := ((c10_os_price_guard (fun u _ => (u, .ok [])) id (fun _ => "1.00")
      (fun _ _ _ => "TTTT1002U") () ⟨"12345678", "01"⟩ "NASD" "AAPL" 1 1 true).2
      (by norm_num)).1
    exact ⟨req, hreq⟩

/-- C1: for every synthetic page sequence whose pages before the last carry a
continuing flag and whose last page carries the terminal flag, the pager
issues exactly n fetch calls and returns the row-wise concatenation of all
pages' rows with each distinct row kept exactly once at its first occurrence
(which removes server-reissued boundary rows): the result equals first-seen
deduplication of the concatenation, has no duplicates, keeps exactly the rows
of the concatenation, and preserves their relative order. -/
theorem c1_pager_calls_and_rows (pages : List Page) (is_kr : Bool)
    (hne : 0 < pages.length)
    (hmid : ∀ i, i + 1 < pages.length →
      has_more_data ((pages.getD i default_page).tr_cont) = true)
    (hlast : has_more_data ((pages.getD (pages.length - 1) default_page).tr_cont) = false) :
    (send_continuous_query (fun j _ => .ok (pages.getD j default_page)) Page.rows is_kr
        pages.length
      = .ok (drop_duplicates (pages.map Page.rows).flatten, pages.length)) ∧
    (drop_duplicates (pages.map Page.rows).flatten).Nodup ∧
    (∀ r, r ∈ drop_duplicates (pages.map Page.rows).flatten
      ↔ r ∈ (pages.map Page.rows).flatten) ∧
    (drop_duplicates (pages.map Page.rows).flatten).Sublist (pages.map Page.rows).flatten := by
  refine ⟨?_, drop_duplicates_nodup _, fun r => mem_drop_duplicates r _,
    drop_duplicates_sublist _⟩
  rw [send_continuous_query,
    send_continuous_query_aux_list pages is_kr pages.length 0 [] hne (by omega) hmid hlast]
  simp

/-- C1 witness: the end-to-end scenario of the spec, two pages with rows A, B
and B, C where the boundary row B is reissued, aggregates to A, B, C in two
calls. -/
theorem c1_witness :
    send_continuous_query
        (fun j _ => .ok (([⟨["A", "B"], "F", "X", "Y"⟩, ⟨["B", "C"], "D", "", ""⟩] : List Page).getD
          j default_page))
        Page.rows true 2
      = .ok (["A", "B", "C"], 2) := by
  have h := (c1_pager_calls_and_rows
    [⟨["A", "B"], "F", "X", "Y"⟩, ⟨["B", "C"], "D", "", ""⟩] true (by decide)
    (by
      intro i hi
      simp only [List.length_cons, List.length_nil] at hi
      have h0 : i = 0 := by omega
      subst h0
      decide) (by decide)).1
  exact h.trans (by decide)

/-- C5: a first page that is empty or malformed short-circuits to an empty
result with no further continuation calls: get_kr_ohlcv returns an empty
DataFrame after its single request whenever the response is not ok, has no
output blocks, or has zero rows in its first block; and the pager returns an
empty aggregate after exactly one call when the single terminal first page
has zero rows. -/
theorem c5_empty_first_page
    (server : APIRequest → OhlcvResponse) (reshape : String → String)
    (ticker time_unit : String)
    (fetch : FetchFn) (is_kr : Bool) (p : Page) (fuel : Nat) :
    ((¬ (_get_kr_history server ticker time_unit).2.is_ok ∨
      (_get_kr_history server ticker time_unit).2.outputs.length = 0 ∨
      ((_get_kr_history server ticker time_unit).2.outputs.getD 0 []).length = 0) →
      get_kr_ohlcv server reshape ticker time_unit
        = ((_get_kr_history server ticker time_unit).1, []) ∧
      (get_kr_ohlcv server reshape ticker time_unit).1.length = 1) ∧
    (fetch 0 [] = .ok p → p.rows = [] → has_more_data p.tr_cont = false →
      send_continuous_query fetch Page.rows is_kr (fuel + 1) = .ok ([], 1)) := by
  constructor
  · intro h
    have hcond : get_kr_ohlcv server reshape ticker time_unit
        = ((_get_kr_history server ticker time_unit).1, []) := by
      rw [get_kr_ohlcv]
      exact if_pos h
    exact ⟨hcond, by rw [hcond]; rfl⟩
  · intro hfetch hrows hflag
    have step : send_continuous_query_aux fetch is_kr 0 [] (fuel + 1)
        = match fetch 0 [] with
          | .error e => .error e
          | .ok q =>
            if has_more_data q.tr_cont then
              match send_continuous_query_aux fetch is_kr 1 (continuation_params is_kr q) fuel with
              | .error e => .error e
              | .ok (ps, c) => .ok (q :: ps, c + 1)
            else .ok ([q], 1) := rfl
    simp [send_continuous_query, step, hfetch, hflag, hrows, drop_duplicates,
      drop_duplicates_aux]

/-- C5 witness: a not-ok history response yields the empty DataFrame from the
single request, and a single terminal zero-row page yields the empty
aggregate in one call. -/
theorem c5_witness :
    (get_kr_ohlcv (fun _ => ⟨false, []⟩) id "005930" "D"
      = ((_get_kr_history (fun _ => ⟨false, []⟩) "005930" "D").1, [])) ∧
    send_continuous_query (fun _ _ => .ok ⟨[], "D", "", ""⟩) Page.rows true 1
      = .ok ([], 1) := by
  have h := c5_empty_first_page (fun _ => ⟨false, []⟩) id "005930" "D"
    (fun _ _ => .ok ⟨[], "D", "", ""⟩) true ⟨[], "D", "", ""⟩ 0
  exact ⟨(h.1 (Or.inl (by decide))).1, h.2 rfl rfl (by decide)⟩

/-- C3: the pager stops exactly when the response-level continuation flag
signals no more pages: when the response at index N is terminal and all
earlier responses continue, the loop returns after exactly N+1 fetch calls
with a result independent of any additional fuel, so it terminates for every
fetch function that eventually returns a terminal flag; and no defensive
iteration bound is enforced: a fetch function that always signals more data
makes the loop issue one call per unit of fuel, for every fuel. -/
theorem c3_pager_stops_on_terminal_flag :
    (∀ (fetch : FetchFn) (is_kr : Bool) (pg : Nat → Page) (N : Nat),
      (∀ i, i ≤ N → resp_at fetch is_kr i = .ok (pg i)) →
      (∀ i, i < N → has_more_data (pg i).tr_cont = true) →
      has_more_data (pg N).tr_cont = false →
      ∀ fuel, send_continuous_query_aux fetch is_kr 0 [] (N + 1 + fuel)
        = .ok ((List.range (N + 1)).map pg, N + 1)) ∧
    (∀ fuel, send_continuous_query_aux (fun _ _ => .ok always_more_page) true 0 [] fuel
      = .ok (List.replicate fuel always_more_page, fuel)) := by
  constructor
  · intro fetch is_kr pg N hok hmore hterm fuel
    have h : ∀ i, 0 ≤ i → i < 0 + N →
        resp_at fetch is_kr i = .ok (pg i) ∧ has_more_data (pg i).tr_cont = true := by
      intro i _ hi
      exact ⟨hok i (by omega), hmore i (by omega)⟩
    have hshift := send_continuous_query_aux_shift fetch is_kr pg N 0 (fuel + 1) h
    have h0 : params_trace fetch is_kr 0 = [] := rfl
    rw [h0] at hshift
    simp only [Nat.zero_add] at hshift
    have harith : N + 1 + fuel = N + (fuel + 1) := by omega
    rw [harith, hshift]
    have hstep : send_continuous_query_aux fetch is_kr N (params_trace fetch is_kr N) (fuel + 1)
        = .ok ([pg N], 1) := by
      have step : send_continuous_query_aux fetch is_kr N (params_trace fetch is_kr N) (fuel + 1)
          = match fetch N (params_trace fetch is_kr N) with
            | .error e => .error e
            | .ok p =>
              if has_more_data p.tr_cont then
                match send_continuous_query_aux fetch is_kr (N + 1)
                    (continuation_params is_kr p) fuel with
                | .error e => .error e
                | .ok (ps, c) => .ok (p :: ps, c + 1)
              else .ok ([p], 1) := rfl
      have hN : fetch N (params_trace fetch is_kr N) = .ok (pg N) := hok N (le_refl N)
      rw [step]
      simp only [hN, hterm, Bool.false_eq_true, if_false]
    rw [hstep]
    show Except.ok (((List.range N).map pg) ++ [pg N], 1 + N)
        = .ok ((List.range (N + 1)).map pg, N + 1)
    rw [List.range_succ, List.map_append, List.map_singleton, Nat.add_comm 1 N]
  · have key : ∀ (fuel k : Nat) (par : Params),
        send_continuous_query_aux (fun _ _ => .ok always_more_page) true k par fuel
          = .ok (List.replicate fuel always_more_page, fuel) := by
      intro fuel
      induction fuel with
      | zero => intro k par; rfl
      | succ fuel ih =>
        intro k par
        have step : send_continuous_query_aux (fun _ _ => .ok always_more_page) true k par
            (fuel + 1)
            = if has_more_data always_more_page.tr_cont then
                match send_continuous_query_aux (fun _ _ => .ok always_more_page) true (k + 1)
                    (continuation_params true always_more_page) fuel with
                | .error e => .error e
                | .ok (ps, c) => .ok (always_more_page :: ps, c + 1)
              else .ok ([always_more_page], 1) := rfl
        rw [step, if_pos (by decide), ih (k + 1) (continuation_params true always_more_page)]
        rfl
    exact fun fuel => key fuel 0 []

/-- C3 witness: a fetch whose second response is terminal stops after exactly
two calls independently of the extra fuel, and the always-continuing fetch
consumes all three units of fuel with three calls. -/
theorem c3_witness :
    send_continuous_query_aux
        (fun k _ => .ok (if k = 0 then ⟨["r"], "F", "", ""⟩ else ⟨[], "D", "", ""⟩)) true 0 [] 5
      = .ok ([⟨["r"], "F", "", ""⟩, ⟨[], "D", "", ""⟩], 2) ∧
    send_continuous_query_aux (fun _ _ => .ok always_more_page) true 0 [] 3
      = .ok (List.replicate 3 always_more_page, 3) := by
  constructor
  · have h := c3_pager_stops_on_terminal_flag.1
      (fun k _ => .ok (if k = 0 then ⟨["r"], "F", "", ""⟩ else ⟨[], "D", "", ""⟩)) true
      (fun k => if k = 0 then ⟨["r"], "F", "", ""⟩ else ⟨[], "D", "", ""⟩) 1
      (by intro i hi; interval_cases i <;> rfl)
      (by intro i hi; interval_cases i; decide) (by decide) 3
    exact h.trans (by decide)
  · exact c3_pager_stops_on_terminal_flag.2 3

/-- C7: an HTTP-layer error during any iteration of a paged query propagates
uncaught through the pager: when the calls before k succeed with a continuing
flag and call k fails with error e, the aggregate query returns exactly that
error, so the pages already fetched are discarded and the caller receives no
partial result. -/
theorem c7_http_error_aborts (fetch : FetchFn) (to_dataframe : Page → List String)
    (is_kr : Bool) (pg : Nat → Page) (k fuel : Nat) (e : PyError)
    (hok : ∀ i, i < k →
      resp_at fetch is_kr i = .ok (pg i) ∧ has_more_data (pg i).tr_cont = true)
    (herr : resp_at fetch is_kr k = .error e) :
    send_continuous_query fetch to_dataframe is_kr (k + 1 + fuel) = .error e := by
  have hshift := send_continuous_query_aux_shift fetch is_kr pg k 0 (fuel + 1)
    (by intro i hi1 hi2; exact hok i (by omega))
  have h0 : params_trace fetch is_kr 0 = [] := rfl
  rw [h0] at hshift
  simp only [Nat.zero_add] at hshift
  have hstep : send_continuous_query_aux fetch is_kr k (params_trace fetch is_kr k) (fuel + 1)
      = .error e := by
    have step : send_continuous_query_aux fetch is_kr k (params_trace fetch is_kr k) (fuel + 1)
        = match fetch k (params_trace fetch is_kr k) with
          | .error e2 => .error e2
          | .ok p =>
            if has_more_data p.tr_cont then
              match send_continuous_query_aux fetch is_kr (k + 1)
                  (continuation_params is_kr p) fuel with
              | .error e2 => .error e2
              | .ok (ps, c) => .ok (p :: ps, c + 1)
            else .ok ([p], 1) := rfl
    have herr2 : fetch k (params_trace fetch is_kr k) = .error e := herr
    rw [step, herr2]
  have harith : k + 1 + fuel = k + (fuel + 1) := by omega
  rw [send_continuous_query, harith, hshift, hstep]

/-- C7 witness: the first call succeeds with a continuing flag, the second
call fails with an HTTP error, and the whole paged query returns exactly that
error with no partial rows. -/
theorem c7_witness :
    send_continuous_query
        (fun j _ => if j = 0 then .ok ⟨["r"], "F", "a", "b"⟩ else .error (.httpError "boom"))
        Page.rows true 2
      = .error (.httpError "boom") := by
  exact c7_http_error_aborts
    (fun j _ => if j = 0 then .ok ⟨["r"], "F", "a", "b"⟩ else .error (.httpError "boom"))
    Page.rows true (fun _ => ⟨["r"], "F", "a", "b"⟩) 1 0 (.httpError "boom")
    (by intro i hi; interval_cases i; exact ⟨rfl, by decide⟩) rfl

/-- C2: the continuation cursor merged into the parameters of fetch call k+1
equals, verbatim, the cursor fields returned by the server in the response to
call k, and the first call carries an empty cursor: the trace of extra
parameters starts empty; the parameters of call k+1 are exactly the cursor
fields of response k; the pager loop really reaches call k+1 with those
traced parameters; and merged into the balance request they override the
initially empty CTX_AREA fields, which hold the empty string on the first
call. -/
theorem c2_cursor_carried_verbatim (fetch : FetchFn) (is_kr : Bool) (pg : Nat → Page)
    (k fuel : Nat)
    (h : ∀ i, i < k + 1 →
      resp_at fetch is_kr i = .ok (pg i) ∧ has_more_data (pg i).tr_cont = true) :
    (params_trace fetch is_kr 0 = []) ∧
    (params_trace fetch is_kr (k + 1) = continuation_params is_kr (pg k)) ∧
    (lookup_param (params_trace fetch is_kr (k + 1))
        ("CTX_AREA_FK" ++ get_continuous_query_code is_kr) = some (pg k).ctx_area_fk) ∧
    (lookup_param (params_trace fetch is_kr (k + 1))
        ("CTX_AREA_NK" ++ get_continuous_query_code is_kr) = some (pg k).ctx_area_nk) ∧
    (send_continuous_query_aux fetch is_kr 0 [] (k + 1 + fuel)
      = match send_continuous_query_aux fetch is_kr (k + 1)
            (params_trace fetch is_kr (k + 1)) fuel with
        | .error e => .error e
        | .ok (ps, c) => .ok (((List.range (k + 1)).map pg) ++ ps, c + (k + 1))) ∧
    (∀ (server : APIRequest → Except PyError Page) (acc : Account) (eh : Option Params),
      ((_get_total_balance server (some acc) is_kr eh
          (some (params_trace fetch is_kr (k + 1)))).1).map
          (fun r => lookup_param r.params ("CTX_AREA_FK" ++ get_continuous_query_code is_kr))
        = [some (pg k).ctx_area_fk] ∧
      ((_get_total_balance server (some acc) is_kr eh
          (some (params_trace fetch is_kr (k + 1)))).1).map
          (fun r => lookup_param r.params ("CTX_AREA_NK" ++ get_continuous_query_code is_kr))
        = [some (pg k).ctx_area_nk]) ∧
    (∀ (server : APIRequest → Except PyError Page) (acc : Account) (eh : Option Params),
      ((_get_total_balance server (some acc) is_kr eh (some [])).1).map
          (fun r => lookup_param r.params ("CTX_AREA_FK" ++ get_continuous_query_code is_kr))
        = [some ""] ∧
      ((_get_total_balance server (some acc) is_kr eh (some [])).1).map
          (fun r => lookup_param r.params ("CTX_AREA_NK" ++ get_continuous_query_code is_kr))
        = [some ""]) := by
  have hk : fetch k (params_trace fetch is_kr k) = .ok (pg k) := (h k (by omega)).1
  have hpt : params_trace fetch is_kr (k + 1) = continuation_params is_kr (pg k) := by
    simp only [params_trace, hk]
  refine ⟨rfl, hpt, ?_, ?_, ?_, ?_, ?_⟩
  · rw [hpt]
    cases is_kr <;> simp [continuation_params, lookup_param, get_continuous_query_code]
  · rw [hpt]
    cases is_kr <;> simp [continuation_params, lookup_param, get_continuous_query_code]
  · have hshift := send_continuous_query_aux_shift fetch is_kr pg (k + 1) 0 fuel
      (by intro i hi1 hi2; exact h i (by omega))
    have h0 : params_trace fetch is_kr 0 = [] := rfl
    rw [h0] at hshift
    simp only [Nat.zero_add] at hshift
    have harith : k + 1 + fuel = (k + 1) + fuel := rfl
    rw [harith, hshift]
  · intro server acc eh
    rw [hpt]
    cases is_kr <;>
      simp [_get_total_balance, merge_json, continuation_params, lookup_param,
        none_to_empty_dict, get_continuous_query_code]
  · intro server acc eh
    cases is_kr <;>
      simp [_get_total_balance, merge_json, continuation_params, lookup_param,
        none_to_empty_dict, get_continuous_query_code]

/-- C2 witness: with a fetch that returns cursor fields naming the call
index, the parameters of call 1 hold verbatim the cursor of response 0 under
the domestic field names, and the first call's cursor fields are empty. -/
theorem c2_witness :
    (lookup_param
        (params_trace (fun j _ => .ok ⟨[], "F", "fk" ++ toString j, "nk" ++ toString j⟩) true 1)
        "CTX_AREA_FK1" = some "fk0") ∧
    (lookup_param
        (params_trace (fun j _ => .ok ⟨[], "F", "fk" ++ toString j, "nk" ++ toString j⟩) true 1)
        "CTX_AREA_NK1" = some "nk0") ∧
    params_trace (fun j _ => .ok ⟨[], "F", "fk" ++ toString j, "nk" ++ toString j⟩) true 0
      = [] := by
  have h := c2_cursor_carried_verbatim
    (fun j _ => .ok ⟨[], "F", "fk" ++ toString j, "nk" ++ toString j⟩) true
    (fun j => ⟨[], "F", "fk" ++ toString j, "nk" ++ toString j⟩) 0 0
    (by intro i hi; interval_cases i; exact ⟨rfl, by decide⟩)
  exact ⟨h.2.2.1, h.2.2.2.1, h.1⟩

end Pykis
